import Mathlib

/-
Shallow embedding of `custom_components/discogs_enhanced/sensor.py`
(a Home Assistant sensor platform polling the Discogs API) together with
proofs about its behaviour.

Python dicts with a fixed key set are embedded as structures; JSON
dictionaries with open key sets as association lists; Python `None` as
`Option.none`; locale-formatted currency strings are parsed to exact
decimal values in `ℚ`; the standard-library pseudo-random generator is
modelled as an explicit seeded state (see `rngNext`).
-/

/- ## Sensor type constants (sensor.py lines 43-52) -/

def SENSOR_COLLECTION_TYPE : String := "collection"

def SENSOR_WANTLIST_TYPE : String := "wantlist"

def SENSOR_RANDOM_RECORD_TYPE : String := "random_record"

def SENSOR_COLLECTION_VALUE_MIN_TYPE : String := "collection_value_min"

def SENSOR_COLLECTION_VALUE_MEDIAN_TYPE : String := "collection_value_median"

def SENSOR_COLLECTION_VALUE_MAX_TYPE : String := "collection_value_max"

def SENSOR_VINYL_COUNT_TYPE : String := "vinyl_count"

def SENSOR_CD_COUNT_TYPE : String := "cd_count"

/- ## Entity descriptions (sensor.py lines 56-105) -/

structure SensorEntityDescription where
  key : String
  name : String
  icon : String
  native_unit_of_measurement : Option String := none
deriving DecidableEq

def UNIT_RECORDS : String := "records"

def SENSOR_TYPES : List SensorEntityDescription :=
  [ { key := SENSOR_COLLECTION_TYPE, name := "Collection", icon := "mdi:album",
      native_unit_of_measurement := some UNIT_RECORDS },
    { key := SENSOR_WANTLIST_TYPE, name := "Wantlist", icon := "mdi:album",
      native_unit_of_measurement := some UNIT_RECORDS },
    { key := SENSOR_RANDOM_RECORD_TYPE, name := "Random Record", icon := "mdi:record-player" },
    { key := SENSOR_COLLECTION_VALUE_MIN_TYPE, name := "Collection Value (Min)",
      icon := "mdi:cash" },
    { key := SENSOR_COLLECTION_VALUE_MEDIAN_TYPE, name := "Collection Value (Median)",
      icon := "mdi:cash" },
    { key := SENSOR_COLLECTION_VALUE_MAX_TYPE, name := "Collection Value (Max)",
      icon := "mdi:cash" },
    { key := SENSOR_VINYL_COUNT_TYPE, name := "Vinyl Records", icon := "mdi:album",
      native_unit_of_measurement := some UNIT_RECORDS },
    { key := SENSOR_CD_COUNT_TYPE, name := "CDs", icon := "mdi:album",
      native_unit_of_measurement := some UNIT_RECORDS } ]

def SENSOR_KEYS : List String := SENSOR_TYPES.map (fun d => d.key)

/- ## Remote data model -/

/-- One entry of a release's `formats` list: a dict with a `name` key
(absent ↦ `none`) and optional `descriptions`. -/
structure FormatDesc where
  name : Option String := none
  descriptions : List String := []
deriving DecidableEq

/-- One entry of a release's `artists` list (dict with optional `name`). -/
structure ArtistDesc where
  name : Option String := none
deriving DecidableEq

/-- The raw data dict of one release (`release_item.release.data` /
`random_record.data`), restricted to the keys the module reads. -/
structure ReleaseData where
  formats : List FormatDesc := []
  artists : List ArtistDesc := []
  title : Option String := none
deriving DecidableEq

/-- A collection folder: its reported item `count` and the item list the
paginated `releases` iteration yields. -/
structure Folder where
  count : Nat
  releases : List ReleaseData
deriving DecidableEq

/-- The authenticated identity object returned by `discogs_client`.
`curr_abbr = none` models the attribute being absent; `data = none`
models the raw-data attribute being absent or not a dict. -/
structure UserIdentity where
  name : String
  username : String
  collection_folders : List Folder
  num_collection : Nat
  num_wantlist : Nat
  curr_abbr : Option String := none
  data : Option (List (String × String)) := none
deriving DecidableEq

/- ## The shared snapshot dict (sensor.py lines 142-154) -/

/-- The `discogs_data` dict built by `setup_platform`; its key set is
fixed by the dict literal at lines 142-154, so it is embedded as a
structure whose defaults are the initial safe values (lines 132-140). -/
structure DiscogsData where
  user : String := "Unknown"
  folders : List Folder := []
  collection_count : Nat := 0
  wantlist_count : Nat := 0
  collection_value_min : String := "0.00"
  collection_value_median : String := "0.00"
  collection_value_max : String := "0.00"
  currency_symbol : String := "$"
  vinyl_count : Nat := 0
  cd_count : Nat := 0
deriving DecidableEq

/-- A value stored in the `discogs_data` dict. -/
inductive DataVal where
  | str (v : String)
  | num (v : Nat)
  | folderList (v : List Folder)
deriving DecidableEq

/-- Dict-style lookup on the snapshot, listing exactly the keys of the
dict literal at lines 142-154. -/
def DiscogsData.getKey (d : DiscogsData) (k : String) : Option DataVal :=
  if k = "user" then some (.str d.user)
  else if k = "folders" then some (.folderList d.folders)
  else if k = "collection_count" then some (.num d.collection_count)
  else if k = "wantlist_count" then some (.num d.wantlist_count)
  else if k = "collection_value_min" then some (.str d.collection_value_min)
  else if k = "collection_value_median" then some (.str d.collection_value_median)
  else if k = "collection_value_max" then some (.str d.collection_value_max)
  else if k = "currency_symbol" then some (.str d.currency_symbol)
  else if k = SENSOR_VINYL_COUNT_TYPE then some (.num d.vinyl_count)
  else if k = SENSOR_CD_COUNT_TYPE then some (.num d.cd_count)
  else none

/- ## Valuation-string parsing (DiscogsSensor.update, lines 385-411) -/

/-- `value_str.replace(',', '')` followed by `re.sub(r'[^\d.]', '', ·)`
(line 390): remove commas, then remove every character that is not a
digit or a decimal point. -/
def cleanValuation (value_str : String) : String :=
  let noCommas := String.mk (value_str.data.filter (fun c => !(c == ',')))
  String.mk (noCommas.data.filter (fun c => c.isDigit || c == '.'))

/-- Numeric value of a list of decimal digits (empty list ↦ 0). -/
def digitsVal (l : List Char) : ℚ :=
  ((l.foldl (fun a c => 10 * a + (c.toNat - 48)) 0 : Nat) : ℚ)

/-- Split a character list on `.` (kernel-reducible analogue of
splitting a string on the decimal point). -/
def splitOnDot : List Char → List (List Char)
  | [] => [[]]
  | c :: rest =>
    let parts := splitOnDot rest
    if c == '.' then [] :: parts
    else
      match parts with
      | [] => [[c]]
      | p :: ps => (c :: p) :: ps

/-- Python `float(·)` on a string made of digits and dots only: valid
iff it has at most one dot and at least one digit. -/
def pyFloatString (s : String) : Option ℚ :=
  match splitOnDot s.data with
  | [intPart] => if intPart = [] then none else some (digitsVal intPart)
  | [intPart, fracPart] =>
      if intPart = [] ∧ fracPart = [] then none
      else some (digitsVal intPart + digitsVal fracPart / (10 : ℚ) ^ fracPart.length)
  | _ => none

/-- The valuation branch of `DiscogsSensor.update` (lines 385-411):
empty string ↦ None; clean; empty cleaned string ↦ None; `float`
failure ↦ None; otherwise multiply by 1000.0 then divide by 1000.0. -/
def parseValuation (value_str : String) : Option ℚ :=
  if value_str = "" then none
  else
    let numeric_value_str := cleanValuation value_str
    if numeric_value_str = "" then none
    else
      match pyFloatString numeric_value_str with
      | none => none
      | some raw_value =>
          let inflated_value := raw_value * 1000
          some (inflated_value / 1000)

/- ## Evaluation helpers for concrete valuation strings -/

theorem digitsVal_eq (l : List Char) (n : Nat)
    (h : l.foldl (fun a c => 10 * a + (c.toNat - 48)) 0 = n) :
    digitsVal l = (n : ℚ) := by
  rw [digitsVal, h]

theorem parseValuation_eval (s : String) (v : ℚ) (hne : ¬s = "")
    (hcne : ¬cleanValuation s = "") (hv : pyFloatString (cleanValuation s) = some v) :
    parseValuation s = some (v * 1000 / 1000) := by
  simp [parseValuation, hne, hcne, hv]

theorem parseValuation_none_of_clean_empty (s : String) (h : cleanValuation s = "") :
    parseValuation s = none := by
  by_cases hne : s = ""
  · simp [parseValuation, hne]
  · simp [parseValuation, hne, h]

theorem pyFloatString_example : pyFloatString "1792790.00" = some (1792790 : ℚ) := by
  have h1 : splitOnDot ("1792790.00".data) = [['1', '7', '9', '2', '7', '9', '0'], ['0', '0']] := by
    decide
  have h2 : digitsVal ['1', '7', '9', '2', '7', '9', '0'] = ((1792790 : Nat) : ℚ) :=
    digitsVal_eq _ _ (by decide)
  have h3 : digitsVal ['0', '0'] = ((0 : Nat) : ℚ) := digitsVal_eq _ _ (by decide)
  simp [pyFloatString, h1, h2, h3]

example : parseValuation "—" = none := by decide
example : parseValuation "" = none := by decide

/- ## Currency symbol resolution (setup_platform, lines 170-176) -/

/-- Lookup in a JSON-style association list (`dict.get`). -/
def assocGet (l : List (String × String)) (k : String) : Option String :=
  (l.find? (fun p => p.1 == k)).map (fun p => p.2)

/-- Lines 170-176: use `identity.curr_abbr` when the attribute exists
and is truthy (non-empty); else the `curr_abbr` key of the raw data
dict when present and truthy; else keep the initialized `"$"`. -/
def resolveCurrency (identity : UserIdentity) : String :=
  match identity.curr_abbr with
  | some s =>
      if s = "" then resolveCurrencyFromData identity else s
  | none => resolveCurrencyFromData identity
where
  resolveCurrencyFromData (identity : UserIdentity) : String :=
    match identity.data with
    | some m =>
        match assocGet m "curr_abbr" with
        | some s => if s = "" then "$" else s
        | none => "$"
    | none => "$"

/- ## Format classification (setup_platform, lines 231-248) -/

/-- Python's `str.lower()` on the format names this module compares
(character-wise lowercasing). -/
def pyLower (s : String) : String := String.mk (s.data.map Char.toLower)

/-- The body of the classification loop (lines 231-242): look at the
first entry of the item's `formats` list; when its `name` is present and
truthy, bump the vinyl counter on a case-insensitive match with
`"vinyl"`, else the CD counter on `"cd"`. -/
def classifyRelease (vinyl cd : Nat) (release_data : ReleaseData) : Nat × Nat :=
  match release_data.formats with
  | [] => (vinyl, cd)
  | primary :: _ =>
    match primary.name with
    | some nm =>
        if nm = "" then (vinyl, cd)
        else if pyLower nm = "vinyl" then (vinyl + 1, cd)
        else if pyLower nm = "cd" then (vinyl, cd + 1)
        else (vinyl, cd)
    | none => (vinyl, cd)

/-- The whole classification walk over a folder's releases, starting
from `current_vinyl_count = current_cd_count = 0` (lines 227-242). -/
def countFormats (releases : List ReleaseData) : Nat × Nat :=
  releases.foldl (fun p release_data => classifyRelease p.1 p.2 release_data) (0, 0)

/-- First format name of an item, when its format list is non-empty and
carries a name. -/
def firstFormatName (release_data : ReleaseData) : Option String :=
  release_data.formats.head?.bind (fun f => f.name)

/-- The item's first format name matches "vinyl" case-insensitively. -/
def isVinylFirst (release_data : ReleaseData) : Bool :=
  match firstFormatName release_data with
  | some nm => pyLower nm == "vinyl"
  | none => false

/-- The item's first format name matches "cd" case-insensitively. -/
def isCdFirst (release_data : ReleaseData) : Bool :=
  match firstFormatName release_data with
  | some nm => pyLower nm == "cd"
  | none => false

/- ## Setup (setup_platform, lines 118-267) -/

/-- Result of `_discogs_client.identity()` together with where the
enclosing try/except sends control: `httpError` is the
`discogs_client.exceptions.HTTPError` at line 213 (invalid token),
`otherError` the generic handler at line 216 (the identity/value block
fails before populating anything, leaving the defaults). -/
inductive IdentityFetch where
  | ok (identity : UserIdentity)
  | httpError
  | otherError
deriving DecidableEq

/-- Result of the direct `/collection/value` HTTP call (lines 183-206):
`ok (some l)` is a JSON dict (association list), `ok none` a JSON value
that is not a dict, and the two error constructors the caught
`RequestException` / `JSONDecodeError`. -/
inductive ValueFetch where
  | ok (json : Option (List (String × String)))
  | requestError
  | jsonError
deriving DecidableEq

/-- Lines 195-206: the three valuation strings kept for the snapshot;
they stay at the initialized `"0.00"` unless the call produced a truthy
(non-empty) dict, in which case each key defaults to `"0.00"`. -/
def collectionValueStrings (vF : ValueFetch) : String × String × String :=
  match vF with
  | .ok (some l) =>
      if l.isEmpty then ("0.00", "0.00", "0.00")
      else ((assocGet l "minimum").getD "0.00",
            (assocGet l "median").getD "0.00",
            (assocGet l "maximum").getD "0.00")
  | _ => ("0.00", "0.00", "0.00")

/-- The snapshot dict built by `setup_platform` (lines 132-257):
`none` models the early `return` on the HTTPError of line 213. -/
def discogsDataOf (idF : IdentityFetch) (vF : ValueFetch) : Option DiscogsData :=
  match idF with
  | .httpError => none
  | .otherError => some {}
  | .ok identity =>
      let d1 : DiscogsData :=
        { user := identity.name
          folders := identity.collection_folders
          collection_count := identity.num_collection
          wantlist_count := identity.num_wantlist
          currency_symbol := resolveCurrency identity }
      let vs := collectionValueStrings vF
      let d2 := { d1 with
        collection_value_min := vs.1
        collection_value_median := vs.2.1
        collection_value_max := vs.2.2 }
      let d3 :=
        if d2.collection_count > 0 then
          match d2.folders.head? with
          | some main_folder =>
              let counts := countFormats main_folder.releases
              { d2 with vinyl_count := counts.1, cd_count := counts.2 }
          | none => d2
        else d2
      some d3

/-- A `DiscogsSensor` entity as `__init__` builds it (lines 287-305). -/
structure DiscogsSensor where
  entity_description : SensorEntityDescription
  discogs_data : DiscogsData
  attr_name : String
  native_unit_of_measurement : Option String
deriving DecidableEq

/-- `DiscogsSensor.__init__`: store the description and snapshot, set
the display name, and for the three value sensors use the snapshot's
currency symbol as the unit. -/
def DiscogsSensor.init (discogs_data : DiscogsData) (name : String)
    (description : SensorEntityDescription) : DiscogsSensor :=
  { entity_description := description
    discogs_data := discogs_data
    attr_name := name ++ " " ++ description.name
    native_unit_of_measurement :=
      if description.key = SENSOR_COLLECTION_VALUE_MIN_TYPE
          ∨ description.key = SENSOR_COLLECTION_VALUE_MEDIAN_TYPE
          ∨ description.key = SENSOR_COLLECTION_VALUE_MAX_TYPE then
        some discogs_data.currency_symbol
      else description.native_unit_of_measurement }

/-- Lines 260-265: one entity per monitored sensor description. -/
def mkEntities (discogs_data : DiscogsData) (name : String)
    (monitored_conditions : List String) : List DiscogsSensor :=
  (SENSOR_TYPES.filter (fun desc => monitored_conditions.contains desc.key)).map
    (fun desc => DiscogsSensor.init discogs_data name desc)

/-- `setup_platform` (lines 118-267): build the snapshot and hand the
entity list to `add_entities`; `none` models the clean abort (line 215)
in which `add_entities` is never called. -/
def setup_platform (name : String) (monitored_conditions : List String)
    (idF : IdentityFetch) (vF : ValueFetch) : Option (DiscogsData × List DiscogsSensor) :=
  match discogsDataOf idF vF with
  | none => none
  | some d => some (d, mkEntities d name monitored_conditions)

/-- The entities `setup_platform` hands to the host: none at all when
setup aborted. -/
def entitiesCreated (r : Option (DiscogsData × List DiscogsSensor)) : List DiscogsSensor :=
  match r with
  | none => []
  | some (_, es) => es

/- ## Pseudo-random draw (get_random_record, lines 341-356) -/

/-- Modelled from the spec: `random.randrange` comes from the Python
standard library, not from this repository; the spec requires a
deterministic pseudo-random generator whose draw is seeded state.
One multiplicative-congruential step advances the state. -/
def rngNext (state : Nat) : Nat := (state * 48271) % (2 ^ 31 - 1)

/-- Modelled from the spec: `random.randrange(n)` draws an index in
`[0, n)` from the generator state and advances the state. -/
def randrange (state : Nat) (n : Nat) : Nat × Nat :=
  let s2 := rngNext state
  (if n = 0 then 0 else s2 % n, s2)

/-- Modelled from the spec: `random.seed` puts the generator in the
state determined by the seed. -/
def seedState (seed : Nat) : Nat := seed

/-- Result of one `get_random_record` call: the returned state string,
the `self._attrs` cache after the call, and the generator state. -/
structure RandomOutcome where
  value : Option String
  attrs : Option ReleaseData
  state : Nat
deriving DecidableEq

/-- Python string interpolation of an optional value (`None` prints as
`"None"`). -/
def pyStrOfOpt (s : Option String) : String :=
  match s with
  | some v => v
  | none => "None"

/-- Lines 351-354: `"{artist} - {title}"` from the cached attrs; a
missing or empty `artists` list falls back to `"Unknown Artist"`, a
missing `title` key to `"Unknown Title"`. -/
def formatRecordLine (release_data : ReleaseData) : String :=
  let artist_name :=
    match release_data.artists with
    | [] => "Unknown Artist"
    | a :: _ => pyStrOfOpt a.name
  let title := release_data.title.getD "Unknown Title"
  artist_name ++ " - " ++ title

/-- `DiscogsSensor.get_random_record` (lines 341-356): when the folder
list is non-empty and the first folder's count is positive, draw an
index, fetch that release, cache its raw data in `self._attrs` and
return the artist/title line; otherwise return `None` leaving the cache
untouched. An out-of-range draw cannot occur when the folder's count is
consistent with its release list. -/
def get_random_record (folders : List Folder) (state : Nat)
    (attrs0 : Option ReleaseData) : RandomOutcome :=
  match folders with
  | [] => { value := none, attrs := attrs0, state := state }
  | collection :: _ =>
    if collection.count > 0 then
      let drawn := randrange state collection.count
      match collection.releases.get? drawn.1 with
      | some random_record =>
          { value := some (formatRecordLine random_record)
            attrs := some random_record
            state := drawn.2 }
      | none => { value := none, attrs := attrs0, state := drawn.2 }
    else { value := none, attrs := attrs0, state := state }

/- ## Per-poll update (DiscogsSensor.update, lines 358-413) -/

/-- A sensor's native value. -/
inductive NativeValue where
  | ofNat (n : Nat)
  | ofNum (q : ℚ)
  | ofStr (s : String)
deriving DecidableEq

/-- Lines 379-385: `key_map` composed with the snapshot lookup for the
three valuation sensors. -/
def valueStringFor (key : String) (d : DiscogsData) : String :=
  if key = SENSOR_COLLECTION_VALUE_MIN_TYPE then d.collection_value_min
  else if key = SENSOR_COLLECTION_VALUE_MEDIAN_TYPE then d.collection_value_median
  else d.collection_value_max

/-- `DiscogsSensor.update` (lines 358-413): the counter sensors read
the snapshot directly, the valuation sensors re-parse their stored
string, and every remaining key falls through to `get_random_record`.
Returns the new native value, the `self._attrs` cache and the generator
state. -/
def DiscogsSensor.update (key : String) (d : DiscogsData) (state : Nat)
    (attrs0 : Option ReleaseData) : Option NativeValue × Option ReleaseData × Nat :=
  if key = SENSOR_COLLECTION_TYPE then (some (.ofNat d.collection_count), attrs0, state)
  else if key = SENSOR_WANTLIST_TYPE then (some (.ofNat d.wantlist_count), attrs0, state)
  else if key = SENSOR_VINYL_COUNT_TYPE then (some (.ofNat d.vinyl_count), attrs0, state)
  else if key = SENSOR_CD_COUNT_TYPE then (some (.ofNat d.cd_count), attrs0, state)
  else if key = SENSOR_COLLECTION_VALUE_MIN_TYPE
      ∨ key = SENSOR_COLLECTION_VALUE_MEDIAN_TYPE
      ∨ key = SENSOR_COLLECTION_VALUE_MAX_TYPE then
    ((parseValuation (valueStringFor key d)).map .ofNum, attrs0, state)
  else
    let r := get_random_record d.folders state attrs0
    (r.value.map .ofStr, r.attrs, r.state)

/-- Overwrite one of the three stored valuation strings (identity on
any other key). -/
def setValuationField (key : String) (d : DiscogsData) (s : String) : DiscogsData :=
  if key = SENSOR_COLLECTION_VALUE_MIN_TYPE then { d with collection_value_min := s }
  else if key = SENSOR_COLLECTION_VALUE_MEDIAN_TYPE then { d with collection_value_median := s }
  else if key = SENSOR_COLLECTION_VALUE_MAX_TYPE then { d with collection_value_max := s }
  else d

/- ## Lemmas about valuation cleaning -/

theorem cleanValuation_append_of_symbols (sym t : String)
    (h : ∀ c ∈ sym.data, c.isDigit = false ∧ c ≠ '.') :
    cleanValuation (sym ++ t) = cleanValuation t := by
  have hnil :
      ((sym.data.filter fun c => !(c == ',')).filter fun c => c.isDigit || c == '.') = [] := by
    rw [List.filter_eq_nil_iff]
    intro a ha
    have ha' : a ∈ sym.data := List.mem_of_mem_filter ha
    obtain ⟨h1, h2⟩ := h a ha'
    simp [h1, h2]
  show String.mk
      (((sym ++ t).data.filter fun c => !(c == ',')).filter fun c => c.isDigit || c == '.') =
    String.mk ((t.data.filter fun c => !(c == ',')).filter fun c => c.isDigit || c == '.')
  rw [String.data_append, List.filter_append, List.filter_append, hnil, List.nil_append]

theorem append_ne_empty_right (s t : String) (ht : t ≠ "") : s ++ t ≠ "" := by
  intro hcontra
  apply ht
  have hdata := congrArg String.data hcontra
  rw [String.data_append] at hdata
  have hnil : t.data = [] := (List.append_eq_nil.mp hdata).2
  exact String.ext hnil

/-- C1: for every valuation string made of a currency-symbol prefix (no
digits, no decimal points) followed by `"1,792,790.00"`, the update
parse — strip commas, keep only digits and decimal points, parse as a
decimal number (with the code's multiply/divide round-trip) — yields
the decimal number 1792790.00. -/
theorem spec_c1 (sym : String) (h : ∀ c ∈ sym.data, c.isDigit = false ∧ c ≠ '.') :
    parseValuation (sym ++ "1,792,790.00") = some (1792790 : ℚ) := by
  have hclean : cleanValuation (sym ++ "1,792,790.00") = "1792790.00" := by
    rw [cleanValuation_append_of_symbols sym _ h]; decide
  have hne : ¬(sym ++ "1,792,790.00" = "") :=
    append_ne_empty_right _ _ (by decide)
  have heval :=
    parseValuation_eval (sym ++ "1,792,790.00") 1792790 hne
      (by rw [hclean]; decide) (by rw [hclean]; exact pyFloatString_example)
  rw [heval]
  norm_num

theorem spec_c1_witness : parseValuation ("€" ++ "1,792,790.00") = some (1792790 : ℚ) :=
  spec_c1 "€" (by decide)

/- ## Update helper lemmas -/

theorem update_at_min (d : DiscogsData) (state : Nat) (attrs0 : Option ReleaseData) :
    DiscogsSensor.update SENSOR_COLLECTION_VALUE_MIN_TYPE d state attrs0 =
      ((parseValuation d.collection_value_min).map .ofNum, attrs0, state) := by
  simp [DiscogsSensor.update, valueStringFor, SENSOR_COLLECTION_TYPE, SENSOR_WANTLIST_TYPE,
    SENSOR_VINYL_COUNT_TYPE, SENSOR_CD_COUNT_TYPE, SENSOR_COLLECTION_VALUE_MIN_TYPE]

theorem update_at_median (d : DiscogsData) (state : Nat) (attrs0 : Option ReleaseData) :
    DiscogsSensor.update SENSOR_COLLECTION_VALUE_MEDIAN_TYPE d state attrs0 =
      ((parseValuation d.collection_value_median).map .ofNum, attrs0, state) := by
  simp [DiscogsSensor.update, valueStringFor, SENSOR_COLLECTION_TYPE, SENSOR_WANTLIST_TYPE,
    SENSOR_VINYL_COUNT_TYPE, SENSOR_CD_COUNT_TYPE, SENSOR_COLLECTION_VALUE_MIN_TYPE,
    SENSOR_COLLECTION_VALUE_MEDIAN_TYPE]

theorem update_at_max (d : DiscogsData) (state : Nat) (attrs0 : Option ReleaseData) :
    DiscogsSensor.update SENSOR_COLLECTION_VALUE_MAX_TYPE d state attrs0 =
      ((parseValuation d.collection_value_max).map .ofNum, attrs0, state) := by
  simp [DiscogsSensor.update, valueStringFor, SENSOR_COLLECTION_TYPE, SENSOR_WANTLIST_TYPE,
    SENSOR_VINYL_COUNT_TYPE, SENSOR_CD_COUNT_TYPE, SENSOR_COLLECTION_VALUE_MIN_TYPE,
    SENSOR_COLLECTION_VALUE_MEDIAN_TYPE, SENSOR_COLLECTION_VALUE_MAX_TYPE]

theorem update_ignores_min (d : DiscogsData) (s : String) (state : Nat)
    (attrs0 : Option ReleaseData) (k : String) (hk : k ≠ SENSOR_COLLECTION_VALUE_MIN_TYPE) :
    DiscogsSensor.update k { d with collection_value_min := s } state attrs0 =
      DiscogsSensor.update k d state attrs0 := by
  simp only [DiscogsSensor.update]
  split_ifs with h1 h2 h3 h4 h5
  · rfl
  · rfl
  · rfl
  · rfl
  · rcases h5 with h | h | h
    · exact absurd h hk
    · subst h
      simp [valueStringFor, SENSOR_COLLECTION_VALUE_MIN_TYPE, SENSOR_COLLECTION_VALUE_MEDIAN_TYPE]
    · subst h
      simp [valueStringFor, SENSOR_COLLECTION_VALUE_MIN_TYPE, SENSOR_COLLECTION_VALUE_MAX_TYPE,
        SENSOR_COLLECTION_VALUE_MEDIAN_TYPE]
  · rfl

theorem update_ignores_median (d : DiscogsData) (s : String) (state : Nat)
    (attrs0 : Option ReleaseData) (k : String) (hk : k ≠ SENSOR_COLLECTION_VALUE_MEDIAN_TYPE) :
    DiscogsSensor.update k { d with collection_value_median := s } state attrs0 =
      DiscogsSensor.update k d state attrs0 := by
  simp only [DiscogsSensor.update]
  split_ifs with h1 h2 h3 h4 h5
  · rfl
  · rfl
  · rfl
  · rfl
  · rcases h5 with h | h | h
    · subst h
      simp [valueStringFor, SENSOR_COLLECTION_VALUE_MIN_TYPE]
    · exact absurd h hk
    · subst h
      simp [valueStringFor, SENSOR_COLLECTION_VALUE_MIN_TYPE, SENSOR_COLLECTION_VALUE_MAX_TYPE,
        SENSOR_COLLECTION_VALUE_MEDIAN_TYPE]
  · rfl

theorem update_ignores_max (d : DiscogsData) (s : String) (state : Nat)
    (attrs0 : Option ReleaseData) (k : String) (hk : k ≠ SENSOR_COLLECTION_VALUE_MAX_TYPE) :
    DiscogsSensor.update k { d with collection_value_max := s } state attrs0 =
      DiscogsSensor.update k d state attrs0 := by
  simp only [DiscogsSensor.update]
  split_ifs with h1 h2 h3 h4 h5
  · rfl
  · rfl
  · rfl
  · rfl
  · rcases h5 with h | h | h
    · subst h
      simp [valueStringFor, SENSOR_COLLECTION_VALUE_MIN_TYPE]
    · subst h
      simp [valueStringFor, SENSOR_COLLECTION_VALUE_MIN_TYPE, SENSOR_COLLECTION_VALUE_MEDIAN_TYPE]
    · exact absurd h hk
  · rfl

/-- C2: when a stored valuation string is empty or cleans to the empty
string, updating that valuation sensor yields a null native value (not
a fallback number), and updating any other sensor key is unaffected by
that stored string. -/
theorem spec_c2 (d : DiscogsData) (key s : String) (state : Nat) (attrs0 : Option ReleaseData)
    (hkey : key = SENSOR_COLLECTION_VALUE_MIN_TYPE ∨ key = SENSOR_COLLECTION_VALUE_MEDIAN_TYPE
      ∨ key = SENSOR_COLLECTION_VALUE_MAX_TYPE)
    (hs : s = "" ∨ cleanValuation s = "") :
    (DiscogsSensor.update key (setValuationField key d s) state attrs0).1 = none
    ∧ ∀ k, k ≠ key →
        DiscogsSensor.update k (setValuationField key d s) state attrs0 =
          DiscogsSensor.update k d state attrs0 := by
  have hparse : parseValuation s = none := by
    rcases hs with h | h
    · simp [parseValuation, h]
    · exact parseValuation_none_of_clean_empty s h
  rcases hkey with hkey | hkey | hkey <;> subst hkey
  · have hset : setValuationField SENSOR_COLLECTION_VALUE_MIN_TYPE d s =
        { d with collection_value_min := s } := by
      simp [setValuationField]
    rw [hset]
    constructor
    · rw [update_at_min]
      simp [hparse]
    · intro k hk
      exact update_ignores_min d s state attrs0 k hk
  · have hset : setValuationField SENSOR_COLLECTION_VALUE_MEDIAN_TYPE d s =
        { d with collection_value_median := s } := by
      simp [setValuationField, SENSOR_COLLECTION_VALUE_MIN_TYPE,
        SENSOR_COLLECTION_VALUE_MEDIAN_TYPE]
    rw [hset]
    constructor
    · rw [update_at_median]
      simp [hparse]
    · intro k hk
      exact update_ignores_median d s state attrs0 k hk
  · have hset : setValuationField SENSOR_COLLECTION_VALUE_MAX_TYPE d s =
        { d with collection_value_max := s } := by
      simp [setValuationField, SENSOR_COLLECTION_VALUE_MIN_TYPE,
        SENSOR_COLLECTION_VALUE_MEDIAN_TYPE, SENSOR_COLLECTION_VALUE_MAX_TYPE]
    rw [hset]
    constructor
    · rw [update_at_max]
      simp [hparse]
    · intro k hk
      exact update_ignores_max d s state attrs0 k hk

theorem spec_c2_witness :
    cleanValuation "—" = ""
    ∧ (DiscogsSensor.update SENSOR_COLLECTION_VALUE_MIN_TYPE
        (setValuationField SENSOR_COLLECTION_VALUE_MIN_TYPE {} "—") 0 none).1 = none :=
  ⟨by decide,
    (spec_c2 {} SENSOR_COLLECTION_VALUE_MIN_TYPE "—" 0 none (Or.inl rfl) (Or.inr (by decide))).1⟩

/- ## Classification lemmas -/

theorem classifyRelease_eq (v c : Nat) (release_data : ReleaseData) :
    classifyRelease v c release_data =
      (v + (if isVinylFirst release_data then 1 else 0),
       c + (if isCdFirst release_data then 1 else 0)) := by
  unfold classifyRelease isVinylFirst isCdFirst firstFormatName
  cases hf : release_data.formats with
  | nil => simp
  | cons primary rest =>
    cases hn : primary.name with
    | none => simp [hn]
    | some nm =>
      by_cases h0 : nm = ""
      · subst h0
        simp [hn, pyLower]
      · by_cases h1 : pyLower nm = "vinyl"
        · simp [hn, h0, h1]
        · by_cases h2 : pyLower nm = "cd"
          · simp [hn, h0, h1, h2]
          · simp [hn, h0, h1, h2]

theorem countFormats_go (items : List ReleaseData) : ∀ v c : Nat,
    items.foldl (fun p release_data => classifyRelease p.1 p.2 release_data) (v, c) =
      (v + items.countP isVinylFirst, c + items.countP isCdFirst) := by
  induction items with
  | nil => intro v c; simp [List.countP_nil]
  | cons release_data rest ih =>
      intro v c
      rw [List.foldl_cons, classifyRelease_eq, ih]
      cases hv : isVinylFirst release_data <;> cases hc : isCdFirst release_data <;>
        simp [List.countP_cons, hv, hc] <;> omega

/-- A one-format item, as in the spec's classification example. -/
def exampleItem (nm : String) : ReleaseData := { formats := [{ name := some nm }] }

/-- The spec's example folder contents. -/
def exampleItems : List ReleaseData :=
  [exampleItem "Vinyl", exampleItem "CD", exampleItem "vinyl", exampleItem "Cassette"]

/-- C4: the classification walk inspects only the first entry of each
item's format list — its result counts exactly the items whose first
format name matches "vinyl" respectively "cd" case-insensitively — and
on first format names Vinyl, CD, vinyl, Cassette it yields vinyl count
2, CD count 1, with the Cassette item matching neither counter. -/
theorem spec_c4 :
    (∀ items : List ReleaseData,
        countFormats items = (items.countP isVinylFirst, items.countP isCdFirst))
    ∧ countFormats exampleItems = (2, 1)
    ∧ isVinylFirst (exampleItem "Cassette") = false
    ∧ isCdFirst (exampleItem "Cassette") = false := by
  refine ⟨fun items => ?_, by decide, by decide, by decide⟩
  have h := countFormats_go items 0 0
  simpa [countFormats] using h

/- ## Setup lemmas -/

theorem discogsDataOf_ok_counts (identity : UserIdentity) (vF : ValueFetch)
    (h : identity.num_collection = 0) :
    ∃ d, discogsDataOf (.ok identity) vF = some d ∧ d.vinyl_count = 0 ∧ d.cd_count = 0 := by
  refine ⟨_, rfl, ?_, ?_⟩ <;> simp [h]

/-- C5: when the identity fetch reports a collection item count of 0,
setup still produces a snapshot, and the format-classification step is
skipped: vinyl and CD counts stay at their initial value 0. -/
theorem spec_c5 (identity : UserIdentity) (vF : ValueFetch) (name : String)
    (monitored_conditions : List String) (h : identity.num_collection = 0) :
    ∃ d es, setup_platform name monitored_conditions (.ok identity) vF = some (d, es)
      ∧ d.vinyl_count = 0 ∧ d.cd_count = 0 := by
  obtain ⟨d, hd, hv, hc⟩ := discogsDataOf_ok_counts identity vF h
  exact ⟨d, mkEntities d name monitored_conditions, by simp [setup_platform, hd], hv, hc⟩

/-- Identity of a user whose collection is empty. -/
def identityEmpty : UserIdentity :=
  { name := "N", username := "n", collection_folders := [],
    num_collection := 0, num_wantlist := 0 }

theorem spec_c5_witness :
    identityEmpty.num_collection = 0
    ∧ ∃ d es, setup_platform "Discogs" [] (.ok identityEmpty) (.ok none) = some (d, es)
        ∧ d.vinyl_count = 0 ∧ d.cd_count = 0 :=
  ⟨rfl, spec_c5 identityEmpty (.ok none) "Discogs" [] rfl⟩

/-- C6: when the identity fetch fails with the authorization HTTPError,
setup aborts cleanly — it returns normally with no snapshot and zero
entities are handed to the host. -/
theorem spec_c6 (vF : ValueFetch) (name : String) (monitored_conditions : List String) :
    setup_platform name monitored_conditions .httpError vF = none
    ∧ entitiesCreated (setup_platform name monitored_conditions .httpError vF) = [] :=
  ⟨rfl, rfl⟩

/- ## Currency resolution (C7) -/

/-- Identity whose `curr_abbr` attribute is present but empty while the
raw data dict carries a non-empty value. -/
def currencyCexIdentity : UserIdentity :=
  { name := "u", username := "u", collection_folders := [], num_collection := 0,
    num_wantlist := 0, curr_abbr := some "", data := some [("curr_abbr", "EUR")] }

/-- C7 counterexample: the `curr_abbr` attribute is present (with value
`""`), yet resolution does not return that attribute's value — the
truthiness guard at line 170 skips a present-but-empty attribute and
falls through to the raw data dict. -/
theorem spec_c7_cex :
    currencyCexIdentity.curr_abbr.isSome = true
    ∧ resolveCurrency currencyCexIdentity = "EUR"
    ∧ resolveCurrency currencyCexIdentity ≠ currencyCexIdentity.curr_abbr.getD "$" :=
  ⟨by decide, by decide, by decide⟩

/-- C7 (amended): the currency symbol resolves in priority order to
(1) the identity's `curr_abbr` attribute when present and non-empty,
else (2) the `curr_abbr` key of the identity's raw data dict when
present and non-empty, else (3) the hardcoded fallback `"$"`. -/
theorem spec_c7 (identity : UserIdentity) :
    (∀ s, identity.curr_abbr = some s → s ≠ "" → resolveCurrency identity = s)
    ∧ ((identity.curr_abbr = none ∨ identity.curr_abbr = some "") →
        ∀ m s, identity.data = some m → assocGet m "curr_abbr" = some s → s ≠ "" →
          resolveCurrency identity = s)
    ∧ ((identity.curr_abbr = none ∨ identity.curr_abbr = some "") →
        (identity.data = none ∨
          ∃ m, identity.data = some m ∧
            (assocGet m "curr_abbr" = none ∨ assocGet m "curr_abbr" = some "")) →
        resolveCurrency identity = "$") := by
  refine ⟨?_, ?_, ?_⟩
  · intro s hs hne
    simp [resolveCurrency, hs, hne]
  · intro hattr m s hm hget hne
    have hfd : resolveCurrency.resolveCurrencyFromData identity = s := by
      simp [resolveCurrency.resolveCurrencyFromData, hm, hget, hne]
    rcases hattr with h | h <;> simp [resolveCurrency, h, hfd]
  · intro hattr hdata
    have hfd : resolveCurrency.resolveCurrencyFromData identity = "$" := by
      rcases hdata with h | ⟨m, hm, hg⟩
      · simp [resolveCurrency.resolveCurrencyFromData, h]
      · rcases hg with hg | hg <;> simp [resolveCurrency.resolveCurrencyFromData, hm, hg]
    rcases hattr with h | h <;> simp [resolveCurrency, h, hfd]

/-- Identity carrying a non-empty `curr_abbr` attribute. -/
def currencyIdentityUSD : UserIdentity :=
  { name := "u", username := "u", collection_folders := [], num_collection := 0,
    num_wantlist := 0, curr_abbr := some "USD" }

theorem spec_c7_witness : resolveCurrency currencyIdentityUSD = "USD" :=
  (spec_c7 currencyIdentityUSD).1 "USD" rfl (by decide)

/- ## Snapshot invariant (C8) -/

/-- The valuation fetch did not produce a usable dict. -/
def valueFetchFailed (vF : ValueFetch) : Prop :=
  vF = .requestError ∨ vF = .jsonError ∨ vF = .ok none

theorem collectionValueStrings_failed (vF : ValueFetch) (h : valueFetchFailed vF) :
    collectionValueStrings vF = ("0.00", "0.00", "0.00") := by
  rcases h with h | h | h <;> subst h <;> rfl

theorem discogsDataOf_ok_valueFields (identity : UserIdentity) (vF : ValueFetch) :
    ∃ d, discogsDataOf (.ok identity) vF = some d
      ∧ d.collection_value_min = (collectionValueStrings vF).1
      ∧ d.collection_value_median = (collectionValueStrings vF).2.1
      ∧ d.collection_value_max = (collectionValueStrings vF).2.2
      ∧ d.currency_symbol = resolveCurrency identity := by
  refine ⟨_, rfl, ?_, ?_, ?_, ?_⟩ <;> dsimp only [discogsDataOf] <;>
    (split
     · split <;> rfl
     · rfl)

/-- C8: every snapshot setup hands to the adapters carries the three
valuation figure fields and the currency symbol field (the dict lookup
finds each key), and on the non-fatal failure paths — generic
identity-block failure, valuation request error, JSON error, or
non-dict JSON — those fields hold the defaults "0.00" and "$". -/
theorem spec_c8 (name : String) (monitored_conditions : List String) (idF : IdentityFetch)
    (vF : ValueFetch) (d : DiscogsData) (es : List DiscogsSensor)
    (h : setup_platform name monitored_conditions idF vF = some (d, es)) :
    ((d.getKey "collection_value_min").isSome = true
      ∧ (d.getKey "collection_value_median").isSome = true
      ∧ (d.getKey "collection_value_max").isSome = true
      ∧ (d.getKey "currency_symbol").isSome = true)
    ∧ (idF = .otherError →
        d.collection_value_min = "0.00" ∧ d.collection_value_median = "0.00"
          ∧ d.collection_value_max = "0.00" ∧ d.currency_symbol = "$")
    ∧ (valueFetchFailed vF →
        d.collection_value_min = "0.00" ∧ d.collection_value_median = "0.00"
          ∧ d.collection_value_max = "0.00") := by
  have hkeys : (d.getKey "collection_value_min").isSome = true
      ∧ (d.getKey "collection_value_median").isSome = true
      ∧ (d.getKey "collection_value_max").isSome = true
      ∧ (d.getKey "currency_symbol").isSome = true := by
    refine ⟨?_, ?_, ?_, ?_⟩ <;> rfl
  cases idF with
  | httpError => simp [setup_platform, discogsDataOf] at h
  | otherError =>
      have hd : d = {} := by
        simp [setup_platform, discogsDataOf] at h
        exact h.1.symm
      subst hd
      exact ⟨hkeys, fun _ => ⟨rfl, rfl, rfl, rfl⟩, fun _ => ⟨rfl, rfl, rfl⟩⟩
  | ok identity =>
      obtain ⟨d', hd', hmin, hmed, hmax, hcur⟩ := discogsDataOf_ok_valueFields identity vF
      have hdd : d' = d := by
        simp [setup_platform, hd'] at h
        exact h.1
      subst hdd
      refine ⟨hkeys, ?_, ?_⟩
      · intro he; cases he
      · intro hv
        rw [collectionValueStrings_failed vF hv] at hmin hmed hmax
        exact ⟨hmin, hmed, hmax⟩

theorem spec_c8_witness :
    (({} : DiscogsData).getKey "collection_value_min").isSome = true
    ∧ ({} : DiscogsData).collection_value_min = "0.00"
    ∧ ({} : DiscogsData).currency_symbol = "$" :=
  ⟨(spec_c8 "Discogs" [] .otherError .requestError {} (mkEntities {} "Discogs" []) rfl).1.1,
    ((spec_c8 "Discogs" [] .otherError .requestError {} (mkEntities {} "Discogs" []) rfl).2.1
      rfl).1,
    ((spec_c8 "Discogs" [] .otherError .requestError {} (mkEntities {} "Discogs" []) rfl).2.1
      rfl).2.2.2⟩

/- ## Random-item adapter (C9, C10) -/

/-- C9: on a poll of the random-item adapter, when the folder list is
non-empty and the first folder's item count is positive (and its count
is consistent with its release list), the drawn index lies in
[0, item_count), exactly that item is fetched, its raw attributes are
cached, and the value is its artist/title line; when the first folder
has count 0 or the folder list is empty, the value is null and the
attribute cache is left as it was. -/
theorem spec_c9 (collection : Folder) (rest : List Folder) (state : Nat)
    (attrs0 : Option ReleaseData) :
    ((0 < collection.count → collection.count ≤ collection.releases.length →
        ∃ idx release_data,
          idx = (randrange state collection.count).1 ∧ idx < collection.count
          ∧ collection.releases.get? idx = some release_data
          ∧ get_random_record (collection :: rest) state attrs0 =
              { value := some (formatRecordLine release_data)
                attrs := some release_data
                state := (randrange state collection.count).2 })
      ∧ (collection.count = 0 →
          get_random_record (collection :: rest) state attrs0 =
            { value := none, attrs := attrs0, state := state }))
    ∧ get_random_record ([] : List Folder) state attrs0 =
        { value := none, attrs := attrs0, state := state } := by
  refine ⟨⟨?_, ?_⟩, rfl⟩
  · intro hpos hlen
    have hne : collection.count ≠ 0 := Nat.pos_iff_ne_zero.mp hpos
    have hlt : (randrange state collection.count).1 < collection.count := by
      simp only [randrange, if_neg hne]
      exact Nat.mod_lt _ hpos
    have hlt2 : (randrange state collection.count).1 < collection.releases.length :=
      lt_of_lt_of_le hlt hlen
    have hg : collection.releases.get? (randrange state collection.count).1 =
        some (collection.releases.get ⟨_, hlt2⟩) := List.get?_eq_get hlt2
    refine ⟨(randrange state collection.count).1,
      collection.releases.get ⟨_, hlt2⟩, rfl, hlt, hg, ?_⟩
    simp only [get_random_record, if_pos hpos]
    rw [hg]
  · intro h0
    simp [get_random_record, h0]

/-- A three-item folder with distinguishable items. -/
def releaseA : ReleaseData := { title := some "A" }

def releaseB : ReleaseData := { title := some "B" }

def releaseC : ReleaseData := { title := some "C" }

def folder3 : Folder := { count := 3, releases := [releaseA, releaseB, releaseC] }

theorem spec_c9_witness :
    0 < folder3.count
    ∧ ∃ idx release_data,
        idx = (randrange 7 folder3.count).1 ∧ idx < folder3.count
        ∧ folder3.releases.get? idx = some release_data
        ∧ get_random_record [folder3] 7 none =
            { value := some (formatRecordLine release_data)
              attrs := some release_data
              state := (randrange 7 folder3.count).2 } :=
  ⟨by decide, ((spec_c9 folder3 [] 7 none).1).1 (by decide) (by decide)⟩

theorem get_random_record_value_cache_independent (folders : List Folder) (state : Nat)
    (attrs0 attrs1 : Option ReleaseData) :
    (get_random_record folders state attrs0).value =
      (get_random_record folders state attrs1).value := by
  cases folders with
  | nil => rfl
  | cons collection rest =>
    by_cases hpos : collection.count > 0
    · cases h : collection.releases.get? (randrange state collection.count).1 with
      | none => simp only [get_random_record, if_pos hpos, h]
      | some release_data => simp only [get_random_record, if_pos hpos, h]
    · simp only [get_random_record, if_neg hpos]

/-- C10: over the three-item folder, the selection made by the
random-item adapter is a function of the generator seed alone — two
requests under the same fixed seed yield the same selection whatever
the cached attributes hold — and the seeds 1 and 2 select different
items. -/
theorem spec_c10 :
    (∀ seed : Nat, ∀ attrs0 attrs1 : Option ReleaseData,
        (get_random_record [folder3] (seedState seed) attrs0).value =
          (get_random_record [folder3] (seedState seed) attrs1).value)
    ∧ (get_random_record [folder3] (seedState 1) none).value ≠
        (get_random_record [folder3] (seedState 2) none).value := by
  constructor
  · intro seed attrs0 attrs1
    exact get_random_record_value_cache_independent [folder3] (seedState seed) attrs0 attrs1
  · decide
